import Mathlib

/-!
Shallow embedding of the Movie-Rating-System backend (Python/FastAPI/SQLAlchemy)
in Lean 4, covering the data model, the repository layer and the service layer
that the verified claims are about.

Conventions of the embedding:
* the relational store is a `DB` value holding the five tables as lists of rows;
* autoincrement primary keys are modelled as `max id + 1` (a fresh id);
* SQL aggregates (`avg`, `count`) are computed over the row lists; numeric
  `avg` results (Python floats / SQL numerics) are idealised as exact rationals;
* Python exceptions that are neither `ValidationError` nor `NotFoundError`
  (`TypeError`, database errors) are the `SvcErr.other` constructor;
* wall-clock values (`datetime.now`) are passed in as explicit parameters;
* a Python dict key that is present only in the detail view is an
  `Option`-wrapped field (`none` = key absent).
-/

/-- Row of the `directors` table (`app/models/director.py`). -/
structure Director where
  id : Nat
  name : String
  birth_year : Option Int := none
  description : Option String := none
deriving Repr, DecidableEq

/-- Row of the `genres` table (`app/models/genre.py`). -/
structure Genre where
  id : Nat
  name : String
  description : Option String := none
deriving Repr, DecidableEq

/-- Row of the `movies` table (`app/models/movie.py`); `director_id` is
`nullable=False` in the ORM model, which is the code the application runs. -/
structure Movie where
  id : Nat
  title : String
  director_id : Nat
  release_year : Option Int := none
  cast : Option String := none
deriving Repr, DecidableEq

/-- Row of the `movie_genres` association table (`app/models/movie_genre.py`).
The surrogate `id` column is never read by the application and is omitted. -/
structure MovieGenre where
  movie_id : Nat
  genre_id : Nat
deriving Repr, DecidableEq

/-- Row of the `movie_ratings` table (`app/models/movie_rating.py`).  The ORM
model declares a `created_at` column (timestamped by a server default); it has
no `rated_at` attribute. -/
structure MovieRating where
  id : Nat
  movie_id : Nat
  score : Int
  created_at : Option Nat := none
deriving Repr, DecidableEq

/-- The relational store. -/
structure DB where
  directors : List Director := []
  genres : List Genre := []
  movies : List Movie := []
  movie_genres : List MovieGenre := []
  ratings : List MovieRating := []
deriving Repr, DecidableEq

/-- Director projection inside the raw movie dict built by
`MovieRepository._format_movie`. -/
structure RawDirector where
  id : Nat
  name : String
  birth_year : Option Int
  description : Option String
deriving Repr, DecidableEq

/-- The raw movie dict built by `MovieRepository._format_movie` (keys `id`,
`title`, `release_year`, `cast`, `director`, `genres`, `average_rating`,
`ratings_count`); `director = none` models the empty dict used when the
movie has no director row. -/
structure RawMovie where
  id : Nat
  title : String
  release_year : Option Int
  cast : Option String
  director : Option RawDirector
  genres : List String
  average_rating : Option ℚ
  ratings_count : Nat
deriving Repr, DecidableEq

namespace MovieRepository

/-- Case-insensitive substring test on character lists, the semantics of the
SQL `ILIKE ('%' + t + '%')` filter for a pattern without wildcard characters. -/
def char_infix (needle : List Char) : List Char → Bool
  | [] => needle.isEmpty
  | c :: rest => needle.isPrefixOf (c :: rest) || char_infix needle rest

/-- `Movie.title ILIKE f"%{title}%"` of `_apply_filters`. -/
def ilike_contains (hay pat : String) : Bool :=
  char_infix pat.toLower.toList hay.toLower.toList

/-- `MovieRepository._apply_filters` as a row predicate.  Python truthiness:
a `None` or empty-string `title`/`genre` applies no filter. -/
def movie_matches (db : DB) (title : Option String) (release_year : Option Int)
    (genre : Option String) (m : Movie) : Bool :=
  (match title with
   | some t => if t == "" then true else ilike_contains m.title t
   | none => true)
  && (match release_year with
      | some y => m.release_year == some y
      | none => true)
  && (match genre with
      | some g =>
        if g == "" then true
        else db.movie_genres.any (fun mg => mg.movie_id == m.id
          && db.genres.any (fun gr => gr.id == mg.genre_id && gr.name == g))
      | none => true)

/-- Scores of all ratings of one movie (`MovieRating.score` rows matching
`MovieRating.movie_id == movie_id`). -/
def movie_scores (db : DB) (movie_id : Nat) : List Int :=
  (db.ratings.filter (fun r => r.movie_id == movie_id)).map (fun r => r.score)

/-- The `func.avg(MovieRating.score)` aggregate of
`_fetch_movies_with_ratings`: present exactly when the movie has at least one
rating, and then the arithmetic mean of its scores. -/
def avg_score (db : DB) (movie_id : Nat) : Option ℚ :=
  let s := movie_scores db movie_id
  if s.isEmpty then none else some ((s.sum : ℚ) / (s.length : ℚ))

/-- The `func.count(MovieRating.id)` aggregate for one movie. -/
def ratings_count (db : DB) (movie_id : Nat) : Nat :=
  (db.ratings.filter (fun r => r.movie_id == movie_id)).length

/-- FK lookup `movie.director`. -/
def find_director (db : DB) (director_id : Nat) : Option Director :=
  db.directors.find? (fun d => d.id == director_id)

/-- The genre-name list of `_format_movie`: names of the genres joined through
`movie_genres`, skipping dangling links and (by Python truthiness of
`mg.genre.name`) empty names. -/
def genre_names (db : DB) (movie_id : Nat) : List String :=
  (db.movie_genres.filter (fun mg => mg.movie_id == movie_id)).filterMap
    (fun mg =>
      match db.genres.find? (fun g => g.id == mg.genre_id) with
      | some g => if g.name == "" then none else some g.name
      | none => none)

/-- `MovieRepository._format_movie` combined with the aggregate fetching of
`_fetch_movies_with_ratings` (which always runs before it). -/
def format_movie (db : DB) (m : Movie) : RawMovie :=
  { id := m.id
    title := m.title
    release_year := m.release_year
    cast := m.cast
    director := (find_director db m.director_id).map
      (fun d => ⟨d.id, d.name, d.birth_year, d.description⟩)
    genres := genre_names db m.id
    average_rating := avg_score db m.id
    ratings_count := ratings_count db m.id }

/-- Ordering used by `order_by(Movie.id)`. -/
def by_id_le (a b : Movie) : Prop := a.id ≤ b.id

instance : DecidableRel by_id_le := fun a b => Nat.decLe a.id b.id

instance : IsTotal Movie by_id_le := ⟨fun a b => Nat.le_total a.id b.id⟩

instance : IsTrans Movie by_id_le := ⟨fun _ _ _ => Nat.le_trans⟩

/-- `MovieRepository.list_paginated`.  The count query is
`COUNT(DISTINCT movies.id)` over the filtered set; the page query orders by
`Movie.id`, skips `(page - 1) * page_size` rows and keeps `page_size` rows.
PostgreSQL rejects a negative `OFFSET` or `LIMIT`, which the code does not
guard against; that database error is the `Except.error` branch. -/
def list_paginated (db : DB) (page page_size : Int) (title : Option String)
    (release_year : Option Int) (genre : Option String) :
    Except String (List RawMovie × Nat) :=
  let offset := (page - 1) * page_size
  if offset < 0 then .error "OFFSET must not be negative"
  else if page_size < 0 then .error "LIMIT must not be negative"
  else
    let filtered := db.movies.filter (movie_matches db title release_year genre)
    let total := ((filtered.map (fun m => m.id)).dedup).length
    let pageRows := ((List.insertionSort by_id_le filtered).drop offset.toNat).take
      page_size.toNat
    .ok (pageRows.map (format_movie db), total)

/-- `MovieRepository.get_by_id`: `one_or_none` on the primary key (the first
matching row in this list model), then the same formatting pipeline. -/
def get_by_id (db : DB) (movie_id : Nat) : Option RawMovie :=
  (db.movies.find? (fun m => m.id == movie_id)).map (format_movie db)

/-- Fresh autoincrement id for the `movies` table. -/
def next_movie_id (db : DB) : Nat :=
  db.movies.foldr (fun m acc => max m.id acc) 0 + 1

/-- `MovieRepository.create_movie`: inserts the movie row, then one
`movie_genres` row per requested genre id, commits once, and returns
`get_by_id` of the new id.  The single session/commit makes the two inserts
one atomic unit. -/
def create_movie (db : DB) (title : String) (director_id : Nat)
    (release_year : Option Int) (cast : Option String) (genre_ids : List Nat) :
    DB × Option RawMovie :=
  let newId := next_movie_id db
  let db2 : DB := { db with
    movies := db.movies ++ [⟨newId, title, director_id, release_year, cast⟩]
    movie_genres := db.movie_genres ++ genre_ids.map (fun gid => ⟨newId, gid⟩) }
  (db2, get_by_id db2 newId)

/-- `MovieRepository.exists_director`. -/
def exists_director (db : DB) (director_id : Nat) : Bool :=
  (db.directors.find? (fun d => d.id == director_id)).isSome

/-- `MovieRepository.count_genres_by_ids`: number of `genres` rows whose id is
in the requested list (so duplicates in the request are counted once). -/
def count_genres_by_ids (db : DB) (genre_ids : List Nat) : Nat :=
  if genre_ids.isEmpty then 0
  else (db.genres.filter (fun g => genre_ids.contains g.id)).length

/-- Modelled from the spec: MovieRepository.update_movie is absent from the
source (only its caller MovieService.update_movie exists).  Per the spec it
"replaces mutable fields and the full genre-association set atomically" and
returns the updated record or an absent result for an unknown id. -/
def update_movie (db : DB) (movie_id : Nat) (title : String)
    (release_year : Int) (cast : Option String) (genre_ids : List Nat) :
    DB × Option RawMovie :=
  match db.movies.find? (fun m => m.id == movie_id) with
  | none => (db, none)
  | some _ =>
    let db2 : DB := { db with
      movies := db.movies.map (fun m =>
        if m.id == movie_id then
          { m with title := title, release_year := some release_year, cast := cast }
        else m)
      movie_genres :=
        db.movie_genres.filter (fun mg => mg.movie_id != movie_id)
          ++ genre_ids.map (fun gid => ⟨movie_id, gid⟩) }
    (db2, get_by_id db2 movie_id)

/-- Modelled from the spec: MovieRepository.delete_movie is absent from the
source (only its caller MovieService.delete_movie exists).  Per the spec it
returns a boolean success flag and "cascades to associations and ratings". -/
def delete_movie (db : DB) (movie_id : Nat) : DB × Bool :=
  if (db.movies.find? (fun m => m.id == movie_id)).isSome then
    ({ db with
        movies := db.movies.filter (fun m => m.id != movie_id)
        movie_genres := db.movie_genres.filter (fun mg => mg.movie_id != movie_id)
        ratings := db.ratings.filter (fun r => r.movie_id != movie_id) }, true)
  else (db, false)

end MovieRepository

namespace RatingRepository

/-- `RatingRepository.add_rating`: returns `none` when the movie row is
absent.  For an existing movie the code then evaluates
`MovieRating(movie_id=..., score=..., rated_at=...)`, but the ORM model maps
`created_at`, not `rated_at`, so the SQLAlchemy declarative constructor
raises `TypeError` before anything is added to the session; no row is ever
inserted.  That exception is the `Except.error` branch. -/
def add_rating (db : DB) (movie_id : Nat) (score : Int) :
    Except String (Option MovieRating) :=
  match db.movies.find? (fun m => m.id == movie_id) with
  | none => .ok none
  | some _ =>
    let _ := score
    .error "TypeError: rated_at is an invalid keyword argument for MovieRating"

end RatingRepository

/-- Domain failures raised by the service layer (`ValidationError`,
`NotFoundError`) plus `other` for any unclassified Python exception
(`TypeError`, database errors), which the controllers map to HTTP 500. -/
inductive SvcErr where
  | validation (msg : String)
  | notFound (msg : String)
  | other (msg : String)
deriving Repr, DecidableEq

/-- External configuration of `MovieService` (`MAX_PAGE_SIZE`,
`MIN_RELEASE_YEAR`). -/
structure Cfg where
  max_page_size : Int
  min_release_year : Int
deriving Repr, DecidableEq

/-- Director projection in the service output dict: `birth_year` and
`description` keys exist only in the detail view (outer `none` = key absent). -/
structure DirectorOut where
  id : Option Nat
  name : Option String
  birth_year : Option (Option Int)
  description : Option (Option String)
deriving Repr, DecidableEq

/-- The movie dict produced by `MovieService._format_output`; `cast`,
`ratings_count` and (after update) `updated_at` keys exist only in the detail
view (outer `none` = key absent). -/
structure MovieOut where
  id : Nat
  title : String
  release_year : Option Int
  director : DirectorOut
  genres : List String
  average_rating : Option ℚ
  cast : Option (Option String)
  ratings_count : Option Nat
  updated_at : Option Nat := none
deriving Repr, DecidableEq

/-- The paginated payload of `MovieService.get_movies_paginated`. -/
structure ListPayload where
  page : Int
  page_size : Int
  total_items : Nat
  items : List MovieOut
deriving Repr, DecidableEq

/-- Python `round(x, 1)` idealised over exact rationals: round to the nearest
tenth, ties to even (the underlying integer rounding is `round_half_even`). -/
def round_half_even (q : ℚ) : Int :=
  if q - (⌊q⌋ : ℚ) = (1 : ℚ) / 2 then
    (if ⌊q⌋ % 2 = 0 then ⌊q⌋ else ⌊q⌋ + 1)
  else round q

/-- Round a rational to one decimal place (Python `round(float(avg), 1)`). -/
def round1 (q : ℚ) : ℚ := (round_half_even (10 * q) : ℚ) / 10

namespace MovieService

/-- `MovieService._validate_pagination`: the source checks only
`page_size > self._max_page_size`; there is no lower-bound check and no check
on `page`. -/
def validate_pagination (cfg : Cfg) (page_size : Int) : Except SvcErr Unit :=
  if cfg.max_page_size < page_size then
    let m := cfg.max_page_size
    .error (.validation s!"page_size must be between 1 and {m}")
  else .ok ()

/-- `MovieService._validate_release_year`: rejects a year outside
`[min_release_year, current_year]`. -/
def validate_release_year (cfg : Cfg) (current_year : Int) (y : Int) :
    Except SvcErr Unit :=
  if y < cfg.min_release_year || current_year < y then
    .error (.validation "Invalid release_year")
  else .ok ()

/-- The unconditional `self._validate_release_year(release_year)` call of
`MovieService.create_movie` applied to its `Optional[int]` argument: with
`None` the Python comparison `release_year < self._min_release_year` raises
`TypeError` (an unclassified error), it does not raise `ValidationError`. -/
def validate_release_year_create (cfg : Cfg) (current_year : Int) :
    Option Int → Except SvcErr Unit
  | none => .error (.other "TypeError: comparison of NoneType and int")
  | some y => validate_release_year cfg current_year y

/-- `MovieService._format_output`: rounds the average to one decimal when
present, reduces the director projection to id and name in the list view and
extends it (plus `cast` and `ratings_count`) in the detail view. -/
def format_output (raw : RawMovie) (detail : Bool) : MovieOut :=
  { id := raw.id
    title := raw.title
    release_year := raw.release_year
    director :=
      { id := raw.director.map (fun d => d.id)
        name := raw.director.map (fun d => d.name)
        birth_year := if detail then some (raw.director.bind (fun d => d.birth_year)) else none
        description := if detail then some (raw.director.bind (fun d => d.description)) else none }
    genres := raw.genres
    average_rating := raw.average_rating.map round1
    cast := if detail then some raw.cast else none
    ratings_count := if detail then some raw.ratings_count else none }

/-- `MovieService.get_movies_paginated`: validates `page_size` (upper bound
only) and, when a `release_year` filter is given, its range; then delegates to
the repository and formats each row in list view. -/
def get_movies_paginated (cfg : Cfg) (current_year : Int) (db : DB)
    (page page_size : Int) (title : Option String) (release_year : Option Int)
    (genre : Option String) : Except SvcErr ListPayload :=
  match validate_pagination cfg page_size with
  | .error e => .error e
  | .ok _ =>
    match (match release_year with
           | some y => validate_release_year cfg current_year y
           | none => .ok ()) with
    | .error e => .error e
    | .ok _ =>
      match MovieRepository.list_paginated db page page_size title release_year genre with
      | .error e => .error (.other e)
      | .ok (items_raw, total) =>
        .ok { page := page, page_size := page_size, total_items := total,
              items := items_raw.map (fun r => format_output r false) }

/-- `MovieService.get_movie_detail`: absence becomes `NotFoundError`. -/
def get_movie_detail (db : DB) (movie_id : Nat) : Except SvcErr MovieOut :=
  match MovieRepository.get_by_id db movie_id with
  | none => .error (.notFound "Movie not found")
  | some raw => .ok (format_output raw true)

/-- `MovieService.create_movie`: validates the release year, then the
director reference, then the genre references (matched count must equal the
requested count), and only then calls the repository insert.  The pair result
threads the store: on any validation failure the store is returned unchanged. -/
def create_movie (cfg : Cfg) (current_year : Int) (db : DB) (title : String)
    (director_id : Nat) (release_year : Option Int) (cast : Option String)
    (genre_ids : List Nat) : DB × Except SvcErr MovieOut :=
  match validate_release_year_create cfg current_year release_year with
  | .error e => (db, .error e)
  | .ok _ =>
    if !MovieRepository.exists_director db director_id then
      (db, .error (.validation "Invalid director_id or genres"))
    else if MovieRepository.count_genres_by_ids db genre_ids != genre_ids.length then
      (db, .error (.validation "Invalid director_id or genres"))
    else
      match MovieRepository.create_movie db title director_id release_year cast genre_ids with
      | (db2, some raw) => (db2, .ok (format_output raw true))
      | (db2, none) => (db2, .error (.other "TypeError: NoneType is not subscriptable"))

/-- `MovieService.update_movie`: validates the year and the genre references,
delegates to the repository, turns an absent result into `NotFoundError`, and
stamps `updated_at` (modelled by the explicit `now` parameter). -/
def update_movie (cfg : Cfg) (current_year : Int) (now : Nat) (db : DB)
    (movie_id : Nat) (title : String) (release_year : Int) (cast : Option String)
    (genre_ids : List Nat) : DB × Except SvcErr MovieOut :=
  match validate_release_year cfg current_year release_year with
  | .error e => (db, .error e)
  | .ok _ =>
    if MovieRepository.count_genres_by_ids db genre_ids != genre_ids.length then
      (db, .error (.validation "Invalid director_id or genres"))
    else
      match MovieRepository.update_movie db movie_id title release_year cast genre_ids with
      | (db2, none) => (db2, .error (.notFound "Movie not found"))
      | (db2, some raw) =>
        (db2, .ok { format_output raw true with updated_at := some now })

/-- `MovieService.delete_movie`: a `false` success flag becomes
`NotFoundError`. -/
def delete_movie (db : DB) (movie_id : Nat) : DB × Except SvcErr Unit :=
  match MovieRepository.delete_movie db movie_id with
  | (db2, true) => (db2, .ok ())
  | (db2, false) => (db2, .error (.notFound "Movie not found"))

end MovieService

/-- The rating payload dict returned by `RatingService.add_rating`. -/
structure RatingOut where
  rating_id : Nat
  movie_id : Nat
  score : Int
  created_at : Option Nat
deriving Repr, DecidableEq

namespace RatingService

/-- `RatingService.add_rating`: rejects a score outside `[1, 10]` with
`ValidationError` before touching the repository; turns an absent repository
result into `NotFoundError`; propagates any repository exception.  (The
success branch mirrors the dict built from the created row; it is unreachable
because the repository insert always raises, see
`RatingRepository.add_rating`.) -/
def add_rating (db : DB) (movie_id : Nat) (score : Int) :
    Except SvcErr RatingOut :=
  if score < 1 || 10 < score then
    .error (.validation "Score must be an integer between 1 and 10")
  else
    match RatingRepository.add_rating db movie_id score with
    | .error e => .error (.other e)
    | .ok none => .error (.notFound "Movie not found")
    | .ok (some r) =>
      .ok { rating_id := r.id, movie_id := r.movie_id, score := r.score,
            created_at := r.created_at }

end RatingService

deriving instance DecidableEq for Except

/-- Database well-formedness, the invariants the relational schema enforces
(unique primary keys, foreign-key integrity) plus non-empty genre names. -/
def DB.WF (db : DB) : Prop :=
  (db.movies.map (fun m => m.id)).Nodup
  ∧ (db.genres.map (fun g => g.id)).Nodup
  ∧ (∀ g ∈ db.genres, g.name ≠ "")
  ∧ (∀ mg ∈ db.movie_genres, mg.movie_id ∈ db.movies.map (fun m => m.id))
  ∧ (∀ r ∈ db.ratings, r.movie_id ∈ db.movies.map (fun m => m.id))

instance (db : DB) : Decidable db.WF := by
  unfold DB.WF; infer_instance

/-- Sample store used to instantiate the theorems: one director, one genre
(id 2), one movie (id 1) linked to that genre, two ratings with scores 4
and 8. -/
def db0 : DB :=
  { directors := [⟨1, "Ava", some 1970, none⟩]
    genres := [⟨2, "Drama", none⟩]
    movies := [⟨1, "Alpha", 1, some 2000, some "A B"⟩]
    movie_genres := [⟨1, 2⟩]
    ratings := [⟨1, 1, 4, some 10⟩, ⟨2, 1, 8, some 11⟩] }

/-- Sample configuration: maximum page size 10, minimum release year 1900. -/
def cfg0 : Cfg := ⟨10, 1900⟩

namespace MovieRepository

theorem id_lt_next_movie_id {db : DB} {m : Movie} (hm : m ∈ db.movies) :
    m.id < next_movie_id db := by
  have h : ∀ l : List Movie, ∀ x ∈ l, x.id ≤ l.foldr (fun m acc => max m.id acc) 0 := by
    intro l
    induction l with
    | nil => intro x hx; cases hx
    | cons a t ih =>
      intro x hx
      rcases List.mem_cons.mp hx with h1 | h1
      · subst h1; exact le_max_left _ _
      · exact le_trans (ih x h1) (le_max_right _ _)
  have := h db.movies m hm
  unfold next_movie_id
  omega

theorem find?_movies_append {db : DB} {m : Movie}
    (hfresh : ∀ x ∈ db.movies, x.id ≠ m.id) :
    (db.movies ++ [m]).find? (fun x => x.id == m.id) = some m := by
  rw [List.find?_append]
  have h1 : db.movies.find? (fun x => x.id == m.id) = none :=
    List.find?_eq_none.mpr (fun x hx => by simpa using hfresh x hx)
  simp [h1]

end MovieRepository

/-- C1: for a movie id with no row, the (spec-modelled) repository
`update_movie` returns an absent result and `delete_movie` returns `false`,
and the service turns these into `NotFoundError` — a not-found failure
distinct from a validation failure. -/
theorem C1_missing_movie_not_found
    (cfg : Cfg) (current_year : Int) (now : Nat) (db : DB) (movie_id : Nat)
    (title : String) (ry : Int) (c : Option String) (gids : List Nat)
    (hy1 : cfg.min_release_year ≤ ry) (hy2 : ry ≤ current_year)
    (hg : MovieRepository.count_genres_by_ids db gids = gids.length)
    (hm : ∀ m ∈ db.movies, m.id ≠ movie_id) :
    (MovieRepository.update_movie db movie_id title ry c gids).2 = none
    ∧ (MovieRepository.delete_movie db movie_id).2 = false
    ∧ (MovieService.update_movie cfg current_year now db movie_id title ry c gids).2
        = .error (.notFound "Movie not found")
    ∧ (MovieService.delete_movie db movie_id).2
        = .error (.notFound "Movie not found") := by
  have hnone : db.movies.find? (fun m => m.id == movie_id) = none :=
    List.find?_eq_none.mpr (fun x hx => by simpa using hm x hx)
  refine ⟨?_, ?_, ?_, ?_⟩
  · simp [MovieRepository.update_movie, hnone]
  · simp [MovieRepository.delete_movie, hnone]
  · simp [MovieService.update_movie, MovieService.validate_release_year,
      MovieRepository.update_movie, hnone, hg, not_lt.mpr hy1, not_lt.mpr hy2]
  · simp [MovieService.delete_movie, MovieRepository.delete_movie, hnone]

/-- Witness for C1 at a concrete store: movie id 99 does not exist in `db0`. -/
theorem C1_missing_movie_not_found_witness :
    (MovieRepository.update_movie db0 99 "T" 2000 none [2]).2 = none
    ∧ (MovieRepository.delete_movie db0 99).2 = false
    ∧ (MovieService.update_movie cfg0 2025 7 db0 99 "T" 2000 none [2]).2
        = .error (.notFound "Movie not found")
    ∧ (MovieService.delete_movie db0 99).2 = .error (.notFound "Movie not found") :=
  C1_missing_movie_not_found cfg0 2025 7 db0 99 "T" 2000 none [2]
    (by decide) (by decide) (by decide) (by decide)

/-- C2 (amended): the service validates only the upper pagination bound —
whenever `page_size` exceeds the configured maximum it raises
`ValidationError` naming the bound, for every store alike (so before any
repository access). -/
theorem C2_pagination_upper_bound (cfg : Cfg) (current_year : Int) (db : DB)
    (page page_size : Int) (t : Option String) (y : Option Int) (g : Option String)
    (h : cfg.max_page_size < page_size) :
    MovieService.get_movies_paginated cfg current_year db page page_size t y g
      = .error (.validation s!"page_size must be between 1 and {cfg.max_page_size}") := by
  simp [MovieService.get_movies_paginated, MovieService.validate_pagination, h]

/-- Witness for C2: maximum 10, requested page size 11. -/
theorem C2_pagination_upper_bound_witness :
    MovieService.get_movies_paginated cfg0 2025 db0 1 11 none none none
      = .error (.validation "page_size must be between 1 and 10") :=
  C2_pagination_upper_bound cfg0 2025 db0 1 11 none none none (by decide)

/-- Counterexample to C2 as stated: `page_size = 0` violates the claimed
lower bound `1 ≤ page_size`, yet the service raises no `ValidationError` and
does call the repository — the returned `total_items = 1` is read from the
store. -/
theorem C2_counterexample_page_size_zero :
    MovieService.get_movies_paginated cfg0 2025 db0 1 0 none none none
      = .ok { page := 1, page_size := 0, total_items := 1, items := [] } := by
  decide

/-- C3: add-rating boundary behaviour at a concrete store.  Scores 0 and 11
are rejected with `ValidationError`, an unknown movie id gives
`NotFoundError`; but for an existing movie and the valid boundary scores 1
and 10 the operation does not return the created record — the repository
raises `TypeError` because it passes `rated_at` to an ORM model whose column
is `created_at`. -/
theorem C3_add_rating_bug :
    RatingService.add_rating db0 1 0
      = .error (.validation "Score must be an integer between 1 and 10")
    ∧ RatingService.add_rating db0 1 11
      = .error (.validation "Score must be an integer between 1 and 10")
    ∧ RatingService.add_rating db0 999 5 = .error (.notFound "Movie not found")
    ∧ RatingService.add_rating db0 1 1
      = .error (.other "TypeError: rated_at is an invalid keyword argument for MovieRating")
    ∧ RatingService.add_rating db0 1 10
      = .error (.other "TypeError: rated_at is an invalid keyword argument for MovieRating") := by
  decide

/-- C4: with the release year in range and an existing director, create-movie
fails with the referential `ValidationError` exactly when the count of
existing genres with ids in the requested list differs from the length of
the requested list (so duplicate ids are rejected, never deduplicated). -/
theorem C4_genre_count_check (cfg : Cfg) (current_year : Int) (db : DB)
    (title : String) (director_id : Nat) (y : Int) (c : Option String)
    (gids : List Nat)
    (hy1 : cfg.min_release_year ≤ y) (hy2 : y ≤ current_year)
    (hd : MovieRepository.exists_director db director_id = true) :
    ((MovieService.create_movie cfg current_year db title director_id (some y) c gids).2
        = .error (.validation "Invalid director_id or genres"))
      ↔ MovieRepository.count_genres_by_ids db gids ≠ gids.length := by
  constructor
  · intro hres heq
    rcases h2 : MovieRepository.create_movie db title director_id (some y) c gids with ⟨db2, raw?⟩
    have hred : MovieService.create_movie cfg current_year db title director_id (some y) c gids
        = (match MovieRepository.create_movie db title director_id (some y) c gids with
           | (db2, some raw) => (db2, .ok (MovieService.format_output raw true))
           | (db2, none) => (db2, .error (.other "TypeError: NoneType is not subscriptable"))) := by
      simp [MovieService.create_movie, MovieService.validate_release_year_create,
        MovieService.validate_release_year, hd, heq, not_lt.mpr hy1, not_lt.mpr hy2]
    rw [hred, h2] at hres
    cases raw? <;> simp at hres
  · intro hne
    simp [MovieService.create_movie, MovieService.validate_release_year_create,
      MovieService.validate_release_year, hd, hne, not_lt.mpr hy1, not_lt.mpr hy2]

/-- Witness for C4: genre ids `[1, 2, 2]` against a store where only genre 2
exists — the matched count is 1, the requested count 3, and create-movie
raises the referential `ValidationError`. -/
theorem C4_genre_count_check_witness :
    MovieRepository.count_genres_by_ids db0 [1, 2, 2] = 1
    ∧ (MovieService.create_movie cfg0 2025 db0 "T" 1 (some 2000) none [1, 2, 2]).2
        = .error (.validation "Invalid director_id or genres") :=
  ⟨by decide,
   (C4_genre_count_check cfg0 2025 db0 "T" 1 2000 none [1, 2, 2]
      (by decide) (by decide) (by decide)).mpr (by decide)⟩

theorem C5_list_paginated (cfg : Cfg) (db : DB) (page page_size : Int)
    (t : Option String) (y : Option Int) (g : Option String)
    (hnd : (db.movies.map (fun m => m.id)).Nodup)
    (hp : 1 ≤ page) (hs1 : 1 ≤ page_size) (_hs2 : page_size ≤ cfg.max_page_size) :
    ∃ items total,
      MovieRepository.list_paginated db page page_size t y g = .ok (items, total)
      ∧ (items.length : Int) ≤ page_size
      ∧ total = (db.movies.filter (MovieRepository.movie_matches db t y g)).length
      ∧ (items.map (fun r => r.id)).Sorted (· ≤ ·)
      ∧ items = (((List.insertionSort MovieRepository.by_id_le
            (db.movies.filter (MovieRepository.movie_matches db t y g))).drop
              ((page - 1) * page_size).toNat).take page_size.toNat).map
            (MovieRepository.format_movie db) := by
  have hoff : ¬ ((page - 1) * page_size < 0) := by
    have h0 : (0 : Int) ≤ (page - 1) * page_size :=
      mul_nonneg (by omega) (by omega)
    omega
  have hps : ¬ (page_size < 0) := by omega
  set filtered := db.movies.filter (MovieRepository.movie_matches db t y g) with hf
  set pageRows := ((List.insertionSort MovieRepository.by_id_le filtered).drop
      ((page - 1) * page_size).toNat).take page_size.toNat with hpr
  refine ⟨pageRows.map (MovieRepository.format_movie db),
    ((filtered.map (fun m => m.id)).dedup).length, ?_, ?_, ?_, ?_, rfl⟩
  · simp [MovieRepository.list_paginated, hoff, hps, hf, hpr]
  · have hlen : pageRows.length ≤ page_size.toNat := by
      simp [hpr, List.length_take]
    have hcast : ((pageRows.map (MovieRepository.format_movie db)).length : Int)
        ≤ (page_size.toNat : Int) := by
      rw [List.length_map]; exact_mod_cast hlen
    have : (page_size.toNat : Int) = page_size := Int.toNat_of_nonneg (by omega)
    omega
  · have hsub : (filtered.map (fun m => m.id)).Sublist (db.movies.map (fun m => m.id)) :=
      (List.filter_sublist _).map _
    have hnd2 : (filtered.map (fun m => m.id)).Nodup := List.Nodup.sublist hsub hnd
    rw [List.dedup_eq_self.mpr hnd2, List.length_map]
  · have hsort : (List.insertionSort MovieRepository.by_id_le filtered).Sorted
        MovieRepository.by_id_le := List.sorted_insertionSort _ _
    have hsub2 : pageRows.Sublist (List.insertionSort MovieRepository.by_id_le filtered) :=
      (List.take_sublist _ _).trans (List.drop_sublist _ _)
    have hpw : pageRows.Pairwise MovieRepository.by_id_le :=
      List.Pairwise.sublist hsub2 hsort
    rw [List.map_map]
    rw [show ((fun r : RawMovie => r.id) ∘ MovieRepository.format_movie db)
        = (fun m : Movie => m.id) from rfl]
    rw [List.Sorted, List.pairwise_map]
    exact hpw

/-- Witness for C5: first page of size 2 over the sample store. -/
theorem C5_witness :
    ∃ items total,
      MovieRepository.list_paginated db0 1 2 none none none = .ok (items, total)
      ∧ (items.length : Int) ≤ 2
      ∧ total = (db0.movies.filter (MovieRepository.movie_matches db0 none none none)).length
      ∧ (items.map (fun r => r.id)).Sorted (· ≤ ·)
      ∧ items = (((List.insertionSort MovieRepository.by_id_le
            (db0.movies.filter (MovieRepository.movie_matches db0 none none none))).drop
              (((1 : Int) - 1) * 2).toNat).take (2 : Int).toNat).map
            (MovieRepository.format_movie db0) :=
  C5_list_paginated cfg0 db0 1 2 none none none (by decide) (by decide) (by decide) (by decide)

/-- C6 (amended): when release_year is provided, create, update and listing
all enforce min_release_year ≤ year ≤ current_year, any violation raising
ValidationError; when it is absent the listing skips the check and proceeds,
but create handed an absent release_year fails with an unclassified
TypeError (the unconditional comparison against the minimum), it does not
proceed. -/
theorem C6_release_year_bounds (cfg : Cfg) (current_year : Int) (now : Nat)
    (db : DB) (page page_size : Int) (t : Option String) (g : Option String)
    (title : String) (director_id movie_id : Nat) (c : Option String)
    (gids : List Nat) (y : Int)
    (hv : y < cfg.min_release_year ∨ current_year < y)
    (hp : 1 ≤ page) (hs1 : 1 ≤ page_size) (hs2 : page_size ≤ cfg.max_page_size) :
    MovieService.get_movies_paginated cfg current_year db page page_size t (some y) g
      = .error (.validation "Invalid release_year")
    ∧ (MovieService.create_movie cfg current_year db title director_id (some y) c gids).2
      = .error (.validation "Invalid release_year")
    ∧ (MovieService.update_movie cfg current_year now db movie_id title y c gids).2
      = .error (.validation "Invalid release_year")
    ∧ (∃ p, MovieService.get_movies_paginated cfg current_year db page page_size t none g
        = .ok p)
    ∧ (MovieService.create_movie cfg current_year db title director_id none c gids).2
      = .error (.other "TypeError: comparison of NoneType and int") := by
  have hoff : ¬ ((page - 1) * page_size < 0) := by
    have h0 : (0 : Int) ≤ (page - 1) * page_size := mul_nonneg (by omega) (by omega)
    omega
  have hps : ¬ (page_size < 0) := by omega
  refine ⟨?_, ?_, ?_, ?_, rfl⟩
  · rcases hv with h | h <;>
      simp [MovieService.get_movies_paginated, MovieService.validate_pagination,
        MovieService.validate_release_year, h, not_lt.mpr hs2]
  · rcases hv with h | h <;>
      simp [MovieService.create_movie, MovieService.validate_release_year_create,
        MovieService.validate_release_year, h]
  · rcases hv with h | h <;>
      simp [MovieService.update_movie, MovieService.validate_release_year, h]
  · rcases hx : MovieService.get_movies_paginated cfg current_year db page page_size t none g
      with e | p
    · simp [MovieService.get_movies_paginated, MovieService.validate_pagination,
        MovieRepository.list_paginated, not_lt.mpr hs2, hoff, hps] at hx
    · exact ⟨p, rfl⟩

/-- Witness for C6: year 1500 is below the configured minimum 1900. -/
theorem C6_witness :
    MovieService.get_movies_paginated cfg0 2025 db0 1 5 none (some 1500) none
      = .error (.validation "Invalid release_year")
    ∧ (MovieService.create_movie cfg0 2025 db0 "T" 1 (some 1500) none []).2
      = .error (.validation "Invalid release_year")
    ∧ (MovieService.update_movie cfg0 2025 7 db0 99 "T" 1500 none []).2
      = .error (.validation "Invalid release_year")
    ∧ (∃ p, MovieService.get_movies_paginated cfg0 2025 db0 1 5 none none none = .ok p)
    ∧ (MovieService.create_movie cfg0 2025 db0 "T" 1 none none []).2
      = .error (.other "TypeError: comparison of NoneType and int") :=
  C6_release_year_bounds cfg0 2025 7 db0 1 5 none none "T" 1 99 none [] 1500
    (Or.inl (by decide)) (by decide) (by decide) (by decide)

/-- Counterexample to C6 as stated: a create request whose release_year is
absent does not proceed — the service fails with a TypeError (mapped to an
unclassified 500), because create_movie validates the year unconditionally
and Python cannot compare None with an int. -/
theorem C6_counterexample :
    (MovieService.create_movie cfg0 2025 db0 "T" 1 none none []).2
      = .error (.other "TypeError: comparison of NoneType and int") := by
  decide

/-- C7: output shaping.  The emitted average_rating is the one-decimal
rounding of the arithmetic mean of the movie's scores when at least one
rating exists and null when none exist; the list view's director projection
carries exactly id and name (no birth_year/description keys, no cast, no
ratings_count), while the detail view adds birth_year and description to the
director plus the cast text and the ratings count. -/
theorem C7_output_shaping (db : DB) (m : Movie) :
    (MovieRepository.movie_scores db m.id = [] →
      (MovieService.format_output (MovieRepository.format_movie db m) false).average_rating
        = none
      ∧ (MovieService.format_output (MovieRepository.format_movie db m) true).average_rating
        = none)
    ∧ (MovieRepository.movie_scores db m.id ≠ [] →
      (MovieService.format_output (MovieRepository.format_movie db m) false).average_rating
        = some (round1 (((MovieRepository.movie_scores db m.id).sum : ℚ)
            / ((MovieRepository.movie_scores db m.id).length : ℚ)))
      ∧ (MovieService.format_output (MovieRepository.format_movie db m) true).average_rating
        = some (round1 (((MovieRepository.movie_scores db m.id).sum : ℚ)
            / ((MovieRepository.movie_scores db m.id).length : ℚ))))
    ∧ (MovieService.format_output (MovieRepository.format_movie db m) false).director
        = ⟨(MovieRepository.find_director db m.director_id).map (fun d => d.id),
           (MovieRepository.find_director db m.director_id).map (fun d => d.name),
           none, none⟩
    ∧ (MovieService.format_output (MovieRepository.format_movie db m) false).cast = none
    ∧ (MovieService.format_output (MovieRepository.format_movie db m) false).ratings_count
        = none
    ∧ (MovieService.format_output (MovieRepository.format_movie db m) true).director
        = ⟨(MovieRepository.find_director db m.director_id).map (fun d => d.id),
           (MovieRepository.find_director db m.director_id).map (fun d => d.name),
           some ((MovieRepository.find_director db m.director_id).bind (fun d => d.birth_year)),
           some ((MovieRepository.find_director db m.director_id).bind (fun d => d.description))⟩
    ∧ (MovieService.format_output (MovieRepository.format_movie db m) true).cast
        = some m.cast
    ∧ (MovieService.format_output (MovieRepository.format_movie db m) true).ratings_count
        = some (MovieRepository.ratings_count db m.id) := by
  refine ⟨?_, ?_, ?_, rfl, rfl, ?_, rfl, rfl⟩
  · intro h
    constructor <;>
      simp [MovieService.format_output, MovieRepository.format_movie,
        MovieRepository.avg_score, h]
  · intro h
    constructor <;>
      simp [MovieService.format_output, MovieRepository.format_movie,
        MovieRepository.avg_score, List.isEmpty_iff, h]
  · simp [MovieService.format_output, MovieRepository.format_movie, Option.map_map]
    constructor <;> rfl
  · simp [MovieService.format_output, MovieRepository.format_movie, Option.map_map]
    refine ⟨by rfl, by rfl, ?_, ?_⟩ <;>
      cases MovieRepository.find_director db m.director_id <;> rfl

/-- Witness for C7: the sample movie has ratings [4, 8], whose mean rounds
to 6.0; the two director projections and the detail-only keys are checked
concretely. -/
theorem C7_witness :
    (MovieService.format_output
        (MovieRepository.format_movie db0 ⟨1, "Alpha", 1, some 2000, some "A B"⟩)
        false).average_rating = some 6
    ∧ (MovieService.format_output
        (MovieRepository.format_movie db0 ⟨1, "Alpha", 1, some 2000, some "A B"⟩)
        false).director = ⟨some 1, some "Ava", none, none⟩
    ∧ (MovieService.format_output
        (MovieRepository.format_movie db0 ⟨1, "Alpha", 1, some 2000, some "A B"⟩)
        true).director = ⟨some 1, some "Ava", some (some 1970), some none⟩
    ∧ (MovieService.format_output
        (MovieRepository.format_movie db0 ⟨1, "Alpha", 1, some 2000, some "A B"⟩)
        true).cast = some (some "A B")
    ∧ (MovieService.format_output
        (MovieRepository.format_movie db0 ⟨1, "Alpha", 1, some 2000, some "A B"⟩)
        true).ratings_count = some 2 := by
  have h := C7_output_shaping db0 ⟨1, "Alpha", 1, some 2000, some "A B"⟩
  have havg := (h.2.1 (by decide)).1
  refine ⟨?_, ?_, ?_, ?_, ?_⟩
  · rw [havg]
    have hs : MovieRepository.movie_scores db0 1 = [4, 8] := by decide
    rw [hs]
    norm_num [round1, round_half_even]
  · rw [h.2.2.1]; decide
  · rw [h.2.2.2.2.2.1]; decide
  · exact h.2.2.2.2.2.2.1
  · rw [h.2.2.2.2.2.2.2]; decide

/-- C8: create-movie validation precedes any mutation and the insert is one
unit.  On an out-of-range year, a missing director or a genre-count mismatch
the service returns ValidationError with the store unchanged; when all
checks pass the returned store is the input store with exactly the one movie
row and all of its genre-association rows appended together. -/
theorem C8_create_atomic (cfg : Cfg) (current_year : Int) (db : DB)
    (title : String) (director_id : Nat) (y : Int) (c : Option String)
    (gids : List Nat) :
    ((y < cfg.min_release_year ∨ current_year < y) →
      MovieService.create_movie cfg current_year db title director_id (some y) c gids
        = (db, .error (.validation "Invalid release_year")))
    ∧ (cfg.min_release_year ≤ y → y ≤ current_year →
      MovieRepository.exists_director db director_id = false →
      MovieService.create_movie cfg current_year db title director_id (some y) c gids
        = (db, .error (.validation "Invalid director_id or genres")))
    ∧ (cfg.min_release_year ≤ y → y ≤ current_year →
      MovieRepository.count_genres_by_ids db gids ≠ gids.length →
      MovieService.create_movie cfg current_year db title director_id (some y) c gids
        = (db, .error (.validation "Invalid director_id or genres")))
    ∧ (cfg.min_release_year ≤ y → y ≤ current_year →
      MovieRepository.exists_director db director_id = true →
      MovieRepository.count_genres_by_ids db gids = gids.length →
      MovieService.create_movie cfg current_year db title director_id (some y) c gids
        = ({ db with
              movies := db.movies
                ++ [⟨MovieRepository.next_movie_id db, title, director_id, some y, c⟩],
              movie_genres := db.movie_genres
                ++ gids.map (fun gid => ⟨MovieRepository.next_movie_id db, gid⟩) },
           .ok (MovieService.format_output
             (MovieRepository.format_movie
               { db with
                  movies := db.movies
                    ++ [⟨MovieRepository.next_movie_id db, title, director_id, some y, c⟩],
                  movie_genres := db.movie_genres
                    ++ gids.map (fun gid => ⟨MovieRepository.next_movie_id db, gid⟩) }
               ⟨MovieRepository.next_movie_id db, title, director_id, some y, c⟩)
             true))) := by
  refine ⟨?_, ?_, ?_, ?_⟩
  · intro hv
    rcases hv with h | h <;>
      simp [MovieService.create_movie, MovieService.validate_release_year_create,
        MovieService.validate_release_year, h]
  · intro hy1 hy2 hd
    simp [MovieService.create_movie, MovieService.validate_release_year_create,
      MovieService.validate_release_year, hd, not_lt.mpr hy1, not_lt.mpr hy2]
  · intro hy1 hy2 hcount
    rcases hdec : MovieRepository.exists_director db director_id with _ | _ <;>
      simp [MovieService.create_movie, MovieService.validate_release_year_create,
        MovieService.validate_release_year, hdec, hcount, not_lt.mpr hy1, not_lt.mpr hy2]
  · intro hy1 hy2 hd hcount
    have hfresh : ∀ x ∈ db.movies,
        x.id ≠ (⟨MovieRepository.next_movie_id db, title, director_id, some y, c⟩ : Movie).id :=
      fun x hx => Nat.ne_of_lt (MovieRepository.id_lt_next_movie_id hx)
    have hfind := @MovieRepository.find?_movies_append db
      ⟨MovieRepository.next_movie_id db, title, director_id, some y, c⟩ hfresh
    simp [MovieService.create_movie, MovieService.validate_release_year_create,
      MovieService.validate_release_year, hd, hcount, not_lt.mpr hy1, not_lt.mpr hy2,
      MovieRepository.create_movie, MovieRepository.get_by_id, hfind]

/-- Witness for C8: director id 99 does not exist in the sample store, so
creation fails with ValidationError and no row change; with director 1 and
genre [2] the commit appends the movie row (fresh id 2) and its single
association row in one step. -/
theorem C8_witness :
    MovieService.create_movie cfg0 2025 db0 "T" 99 (some 2000) none [2]
      = (db0, .error (.validation "Invalid director_id or genres"))
    ∧ (MovieService.create_movie cfg0 2025 db0 "New" 1 (some 2001) none [2]).1.movies
        = db0.movies ++ [⟨2, "New", 1, some 2001, none⟩]
    ∧ (MovieService.create_movie cfg0 2025 db0 "New" 1 (some 2001) none [2]).1.movie_genres
        = db0.movie_genres ++ [⟨2, 2⟩]
    ∧ ∃ out,
        (MovieService.create_movie cfg0 2025 db0 "New" 1 (some 2001) none [2]).2
          = .ok out := by
  have h1 := (C8_create_atomic cfg0 2025 db0 "T" 99 2000 none [2]).2.1
    (by decide) (by decide) (by decide)
  have h2 := (C8_create_atomic cfg0 2025 db0 "New" 1 2001 none [2]).2.2.2
    (by decide) (by decide) (by decide) (by decide)
  refine ⟨h1, ?_, ?_, ?_⟩
  · rw [h2]; rfl
  · rw [h2]; rfl
  · exact ⟨_, by rw [h2]⟩

/-- Shared helper: the committed result of a fully validated create — the
store gains exactly the movie row (with the fresh id) and its
genre-association rows, and the service returns the detail-formatted new
record. -/
theorem create_movie_success (cfg : Cfg) (current_year : Int) (db : DB)
    (title : String) (director_id : Nat) (y : Int) (c : Option String)
    (gids : List Nat)
    (hy1 : cfg.min_release_year ≤ y) (hy2 : y ≤ current_year)
    (hd : MovieRepository.exists_director db director_id = true)
    (hcount : MovieRepository.count_genres_by_ids db gids = gids.length) :
    MovieService.create_movie cfg current_year db title director_id (some y) c gids
      = ({ db with
            movies := db.movies
              ++ [⟨MovieRepository.next_movie_id db, title, director_id, some y, c⟩],
            movie_genres := db.movie_genres
              ++ gids.map (fun gid => ⟨MovieRepository.next_movie_id db, gid⟩) },
         .ok (MovieService.format_output
           (MovieRepository.format_movie
             { db with
                movies := db.movies
                  ++ [⟨MovieRepository.next_movie_id db, title, director_id, some y, c⟩],
                movie_genres := db.movie_genres
                  ++ gids.map (fun gid => ⟨MovieRepository.next_movie_id db, gid⟩) }
             ⟨MovieRepository.next_movie_id db, title, director_id, some y, c⟩)
           true)) := by
  have hfresh : ∀ x ∈ db.movies,
      x.id ≠ (⟨MovieRepository.next_movie_id db, title, director_id, some y, c⟩ : Movie).id :=
    fun x hx => Nat.ne_of_lt (MovieRepository.id_lt_next_movie_id hx)
  have hfind := @MovieRepository.find?_movies_append db
    ⟨MovieRepository.next_movie_id db, title, director_id, some y, c⟩ hfresh
  simp [MovieService.create_movie, MovieService.validate_release_year_create,
    MovieService.validate_release_year, hd, hcount, not_lt.mpr hy1, not_lt.mpr hy2,
    MovieRepository.create_movie, MovieRepository.get_by_id, hfind]

/-- Shared helper: the genre names of a freshly inserted movie are the names
found for its requested genre ids, because no pre-existing association row
can reference the fresh id and genre names are non-empty. -/
theorem genre_names_append (db2 : DB) (newId : Nat) (gids : List Nat)
    (old : List MovieGenre)
    (h1 : db2.movie_genres = old ++ gids.map (fun gid => ⟨newId, gid⟩))
    (hfk : ∀ mg ∈ old, mg.movie_id ≠ newId)
    (hnames : ∀ g ∈ db2.genres, g.name ≠ "") :
    MovieRepository.genre_names db2 newId
      = gids.filterMap (fun gid =>
          (db2.genres.find? (fun g => g.id == gid)).map (fun g => g.name)) := by
  unfold MovieRepository.genre_names
  rw [h1, List.filter_append]
  have hold : old.filter (fun mg => mg.movie_id == newId) = [] :=
    List.filter_eq_nil_iff.mpr (fun mg hmg => by simpa using hfk mg hmg)
  have hnew : (gids.map (fun gid => (⟨newId, gid⟩ : MovieGenre))).filter
      (fun mg => mg.movie_id == newId) = gids.map (fun gid => ⟨newId, gid⟩) := by
    apply List.filter_eq_self.mpr
    intro mg hmg
    rcases List.mem_map.mp hmg with ⟨gid, _, rfl⟩
    simp
  rw [hold, hnew, List.nil_append, List.filterMap_map]
  apply List.filterMap_congr
  intro gid _
  show (match db2.genres.find? (fun g => g.id == gid) with
        | some g => if g.name == "" then none else some g.name
        | none => none)
      = (db2.genres.find? (fun g => g.id == gid)).map (fun g => g.name)
  cases hg : db2.genres.find? (fun g => g.id == gid) with
  | none => rfl
  | some g => simp [hnames g (List.mem_of_find?_eq_some hg)]

/-- C9: round trip.  For every valid create request (year in range, director
exists, genre count matches) over a well-formed store, creating the movie
succeeds and fetching the detail at the returned id gives back the very same
payload, whose title, release year, cast, director and genre set are the
ones supplied at creation (the new movie starts with no ratings). -/
theorem C9_round_trip (cfg : Cfg) (current_year : Int) (db : DB)
    (title : String) (director_id : Nat) (y : Int) (c : Option String)
    (gids : List Nat)
    (hwf : db.WF)
    (hy1 : cfg.min_release_year ≤ y) (hy2 : y ≤ current_year)
    (hd : MovieRepository.exists_director db director_id = true)
    (hcount : MovieRepository.count_genres_by_ids db gids = gids.length) :
    ∃ out,
      (MovieService.create_movie cfg current_year db title director_id (some y) c gids).2
        = .ok out
      ∧ MovieService.get_movie_detail
          (MovieService.create_movie cfg current_year db title director_id (some y) c gids).1
          out.id = .ok out
      ∧ out.title = title
      ∧ out.release_year = some y
      ∧ out.cast = some c
      ∧ out.director.id = some director_id
      ∧ out.director.name
          = (MovieRepository.find_director db director_id).map (fun d => d.name)
      ∧ out.genres
          = gids.filterMap (fun gid =>
              (db.genres.find? (fun g => g.id == gid)).map (fun g => g.name))
      ∧ out.average_rating = none
      ∧ out.ratings_count = some 0 := by
  obtain ⟨hnd_m, hnd_g, hnames, hfk_mg, hfk_r⟩ := hwf
  have hcreate := create_movie_success cfg current_year db title director_id y c gids
    hy1 hy2 hd hcount
  set nid := MovieRepository.next_movie_id db with hnid
  set newM : Movie := ⟨nid, title, director_id, some y, c⟩ with hnm
  set db2 : DB := { db with
      movies := db.movies ++ [newM]
      movie_genres := db.movie_genres ++ gids.map (fun gid => ⟨nid, gid⟩) } with hdb2
  have hfresh_mg : ∀ mg ∈ db.movie_genres, mg.movie_id ≠ nid := by
    intro mg hmg
    rcases List.mem_map.mp (hfk_mg mg hmg) with ⟨m, hm, hmid⟩
    have := MovieRepository.id_lt_next_movie_id hm
    omega
  have hfresh_r : db2.ratings.filter (fun r => r.movie_id == nid) = [] := by
    apply List.filter_eq_nil_iff.mpr
    intro r hr
    rcases List.mem_map.mp (hfk_r r hr) with ⟨m, hm, hmid⟩
    have := MovieRepository.id_lt_next_movie_id hm
    simp
    omega
  have hfind : db2.movies.find? (fun m => m.id == nid) = some newM :=
    @MovieRepository.find?_movies_append db newM
      (fun x hx => Nat.ne_of_lt (MovieRepository.id_lt_next_movie_id hx))
  have hgn : MovieRepository.genre_names db2 nid
      = gids.filterMap (fun gid =>
          (db.genres.find? (fun g => g.id == gid)).map (fun g => g.name)) :=
    genre_names_append db2 nid gids db.movie_genres rfl hfresh_mg hnames
  refine ⟨MovieService.format_output (MovieRepository.format_movie db2 newM) true,
    ?_, ?_, rfl, rfl, rfl, ?_, ?_, ?_, ?_, ?_⟩
  · rw [hcreate]
  · rw [hcreate]
    simp only [MovieService.get_movie_detail, MovieRepository.get_by_id]
    rw [show (MovieService.format_output (MovieRepository.format_movie db2 newM) true).id
        = nid from rfl]
    rw [hfind]
    rfl
  · obtain ⟨d, hdf⟩ := Option.isSome_iff_exists.mp hd
    have hdid : d.id = director_id := by simpa using List.find?_some hdf
    have hdf2 : MovieRepository.find_director db2 director_id = some d := hdf
    simp [MovieService.format_output, MovieRepository.format_movie, hdf2, hdid]
  · have heqd : MovieRepository.find_director db2 director_id
        = MovieRepository.find_director db director_id := rfl
    simp only [MovieService.format_output, MovieRepository.format_movie, heqd]
    cases MovieRepository.find_director db director_id <;> rfl
  · simpa [MovieService.format_output, MovieRepository.format_movie] using hgn
  · simp [MovieService.format_output, MovieRepository.format_movie,
      MovieRepository.avg_score, MovieRepository.movie_scores, hfresh_r]
  · simp [MovieService.format_output, MovieRepository.format_movie,
      MovieRepository.ratings_count, hfresh_r]

/-- Witness for C9 at the sample store: create then fetch movie "New". -/
theorem C9_witness :
    ∃ out,
      (MovieService.create_movie cfg0 2025 db0 "New" 1 (some 2001) (some "X Y") [2]).2
        = .ok out
      ∧ MovieService.get_movie_detail
          (MovieService.create_movie cfg0 2025 db0 "New" 1 (some 2001) (some "X Y") [2]).1
          out.id = .ok out
      ∧ out.title = "New"
      ∧ out.release_year = some 2001
      ∧ out.cast = some (some "X Y")
      ∧ out.director.id = some 1
      ∧ out.director.name
          = (MovieRepository.find_director db0 1).map (fun d => d.name)
      ∧ out.genres
          = [2].filterMap (fun gid =>
              (db0.genres.find? (fun g => g.id == gid)).map (fun g => g.name))
      ∧ out.average_rating = none
      ∧ out.ratings_count = some 0 :=
  C9_round_trip cfg0 2025 db0 "New" 1 2001 (some "X Y") [2]
    (by decide) (by decide) (by decide) (by decide) (by decide)

/-- C10: an empty genre_ids list passes the referential check
(count_genres_by_ids returns 0 = requested count 0), no ValidationError is
raised, and with an existing director and valid year the movie is created
with an empty genre set and no association row inserted. -/
theorem C10_empty_genre_list (cfg : Cfg) (current_year : Int) (db : DB)
    (title : String) (director_id : Nat) (y : Int) (c : Option String)
    (hwf : db.WF)
    (hy1 : cfg.min_release_year ≤ y) (hy2 : y ≤ current_year)
    (hd : MovieRepository.exists_director db director_id = true) :
    MovieRepository.count_genres_by_ids db [] = 0
    ∧ (MovieService.create_movie cfg current_year db title director_id (some y) c []).1.movie_genres
        = db.movie_genres
    ∧ (MovieService.create_movie cfg current_year db title director_id (some y) c []).1.movies
        = db.movies
          ++ [⟨MovieRepository.next_movie_id db, title, director_id, some y, c⟩]
    ∧ ∃ out,
        (MovieService.create_movie cfg current_year db title director_id (some y) c []).2
          = .ok out
        ∧ out.genres = [] := by
  obtain ⟨hnd_m, hnd_g, hnames, hfk_mg, hfk_r⟩ := hwf
  have hcreate := create_movie_success cfg current_year db title director_id y c []
    hy1 hy2 hd rfl
  set nid := MovieRepository.next_movie_id db with hnid
  set newM : Movie := ⟨nid, title, director_id, some y, c⟩ with hnm
  set db2 : DB := { db with
      movies := db.movies ++ [newM]
      movie_genres := db.movie_genres
        ++ ([] : List Nat).map (fun gid => ⟨nid, gid⟩) } with hdb2
  have hfresh_mg : ∀ mg ∈ db.movie_genres, mg.movie_id ≠ nid := by
    intro mg hmg
    rcases List.mem_map.mp (hfk_mg mg hmg) with ⟨m, hm, hmid⟩
    have := MovieRepository.id_lt_next_movie_id hm
    omega
  have hgn : MovieRepository.genre_names db2 nid
      = ([] : List Nat).filterMap (fun gid =>
          (db.genres.find? (fun g => g.id == gid)).map (fun g => g.name)) :=
    genre_names_append db2 nid [] db.movie_genres rfl hfresh_mg hnames
  refine ⟨rfl, ?_, ?_,
    ⟨MovieService.format_output (MovieRepository.format_movie db2 newM) true, ?_, ?_⟩⟩
  · rw [hcreate]
    show db.movie_genres ++ ([] : List Nat).map (fun gid => ⟨nid, gid⟩) = db.movie_genres
    simp
  · rw [hcreate]
  · rw [hcreate]
  · show MovieRepository.genre_names db2 nid = []
    rw [hgn]
    rfl

/-- Witness for C10: creating "Solo" with no genres in the sample store. -/
theorem C10_empty_genre_list_witness :
    MovieRepository.count_genres_by_ids db0 [] = 0
    ∧ (MovieService.create_movie cfg0 2025 db0 "Solo" 1 (some 1999) none []).1.movie_genres
        = db0.movie_genres
    ∧ (MovieService.create_movie cfg0 2025 db0 "Solo" 1 (some 1999) none []).1.movies
        = db0.movies ++ [⟨2, "Solo", 1, some 1999, none⟩]
    ∧ ∃ out,
        (MovieService.create_movie cfg0 2025 db0 "Solo" 1 (some 1999) none []).2
          = .ok out
        ∧ out.genres = [] :=
  C10_empty_genre_list cfg0 2025 db0 "Solo" 1 1999 none
    (by decide) (by decide) (by decide) (by decide)
